import Mathlib

/-!
Shallow embedding of the generic CRUD controller of `server/app/base.py`
and the authorization gate of `server/app/security.py` from the
cloud-raiders repository, together with theorems settling the frozen
claims about its specification.

Python-level failures (TypeError from subscripting a method or the `list`
builtin, AttributeError from a missing class attribute, KeyError) are
modelled with an explicit error type and `Except`; the relational store
is modelled as a list of rows, with SQL `WHERE` / `ORDER BY` / `LIMIT` /
`OFFSET` rendered in their fixed SQL clause order (SQLAlchemy renders
`order_by` before `limit`/`offset` even when the generative call comes
later).
-/

namespace CloudRaiders

/-- Python runtime errors that the embedded code can raise. -/
inductive PyErr
  | typeError
  | keyError
  | attributeError
deriving DecidableEq, Repr

/-- HTTP errors raised via `HTTPException` in handlers. -/
inductive HttpErr
  | notFound404
  | conflict422
deriving DecidableEq, Repr

/-- The one registered model of the repository (`server/app/models.py`):
`Player(id: int | None = Field(primary_key=True), username: str)`.
`id` defaults to `none` when not supplied. -/
structure Player where
  id : Option Int
  username : String
deriving DecidableEq, Repr

/-- Declared type annotations, as inspected by `_get_default_filters`
over `cls.__mro__`'s `__annotations__`. -/
inductive FieldAnn
  | strAnn
  | optStrAnn
  | intAnn
  | optIntAnn
deriving DecidableEq, Repr

/-- The membership test `cls_annotation in [str, Optional[str]]` of
`base.py` line 72. -/
def isStrLike : FieldAnn → Bool
  | .strAnn => true
  | .optStrAnn => true
  | _ => false

/-- Reflection outcome of `BaseDB._class_vars()` for `Player`, paired
with the annotations each attribute carries across the mro: the
non-underscore, non-callable, non-`model*`, non-`metadata` attributes
are the declared columns `id : int | None` and `username : str`. -/
def playerAttrs : List (String × List FieldAnn) :=
  [("id", [FieldAnn.optIntAnn]), ("username", [FieldAnn.strAnn])]

/-- Loop body of `BaseDB._get_default_filters` (base.py lines 65-74).
For each class var, the mro annotations are scanned; the first time an
annotation is `str` or `Optional[str]` the code executes
`defaults.append[cls_attr]`, which subscripts the bound `append` method
instead of calling it, so Python raises `TypeError` at that point.  If
no attribute is string-typed the loop finishes with the empty list. -/
def defaultFiltersLoop : List (String × List FieldAnn) → Except PyErr (List String)
  | [] => Except.ok []
  | (_, anns) :: rest =>
    if anns.any isStrLike then Except.error PyErr.typeError
    else defaultFiltersLoop rest

/-- `BaseDB._get_default_filters` with its cache
(`cls.__default_filters__`, initialised to `[]` by `__init_subclass__`):
the guard `if cls.__default_filters__:` tests list truthiness, so an
empty cache is treated as absent and the loop runs again.  Returns the
result together with the cache left behind for the next call. -/
def getDefaultFiltersWithCache (cache : List String)
    (attrs : List (String × List FieldAnn)) :
    Except PyErr (List String × List String) :=
  if cache.isEmpty then
    (defaultFiltersLoop attrs).map (fun ds => (ds, ds))
  else
    Except.ok (cache, cache)

/-- `Player._get_default_filters()` on a fresh class (empty cache). -/
def getDefaultFiltersPlayer : Except PyErr (List String) :=
  (getDefaultFiltersWithCache [] playerAttrs).map Prod.fst

/-- Boolean test that `needle` starts the list `hay`. -/
def listStartsWith : List Char → List Char → Bool
  | [], _ => true
  | _ :: _, [] => false
  | a :: as, b :: bs => a == b && listStartsWith as bs

/-- Boolean substring test on character lists. -/
def listHasInfix (needle : List Char) : List Char → Bool
  | [] => listStartsWith needle []
  | h :: t => listStartsWith needle (h :: t) || listHasInfix needle t

/-- SQL `hay LIKE '%' || needle || '%'`, i.e. the `.contains` operator
used in `apply_filter`. -/
def strContainsSub (hay needle : String) : Bool :=
  listHasInfix needle.toList hay.toList

/-- `getattr(cls, field)` restricted to the string-typed columns that a
filter list could name on `Player`. -/
def playerStrField (p : Player) : String → String
  | "username" => p.username
  | _ => ""

/-- Row predicate of `BaseDB.apply_filter` (base.py lines 120-126):
`or_` over `func.lower(col(field)).contains(filter)` for each default
filter field.  Only the stored column is lowercased; the filter text is
compared verbatim.  `or_` of an empty list matches no row. -/
def playerMatchesFilter (filters : List String) (filterText : String) (p : Player) : Bool :=
  filters.any (fun fld => strContainsSub (playerStrField p fld).toLower filterText)

/-- Python truthiness of the `if filter:` guard in
`_base_read_list_object`: `None` and the empty string both skip the
filter. -/
def filterTruthy : Option String → Option String
  | none => none
  | some f => if f = "" then none else some f

/-- Rows surviving the `WHERE` clause of the list query: the filter
fields are discovered by `_get_default_filters`, which can raise. -/
def matchingRowsE (rows : List Player) (filterText : Option String) :
    Except PyErr (List Player) :=
  match filterTruthy filterText with
  | none => Except.ok rows
  | some f =>
    getDefaultFiltersPlayer.map (fun filters => rows.filter (playerMatchesFilter filters f))

/-- Sort direction, the `direction: Literal["asc", "desc"]` parameter. -/
inductive Direction
  | asc
  | desc
deriving DecidableEq, Repr

/-- Sortable fields of `Player` (its `_class_vars()`). -/
inductive PlayerSortField
  | id
  | username
deriving DecidableEq, Repr

/-- SQL `NULLS FIRST`-style total order on the nullable `id` column. -/
def optIntLe : Option Int → Option Int → Bool
  | none, _ => true
  | some _, none => false
  | some a, some b => a ≤ b

/-- Column comparison used by `ORDER BY field asc`. -/
def playerLe : PlayerSortField → Player → Player → Bool
  | .id, a, b => optIntLe a.id b.id
  | .username, a, b => a.username ≤ b.username

/-- The `ORDER BY` clause of `_base_read_list_object`
(`query.order_by(getattr(col(...), direction)())`); absent sort leaves
the row order unchanged. -/
def applySort (sort : Option PlayerSortField) (dir : Direction)
    (rows : List Player) : List Player :=
  match sort with
  | none => rows
  | some f =>
    rows.mergeSort (fun a b =>
      match dir with
      | .asc => playerLe f a b
      | .desc => playerLe f b a)

/-- The `BaseRead` projection: `BaseRead.from_db` builds `cls(**dump)`
and `BaseRead` declares no fields, so every field of the dump is
dropped. -/
structure ReadObj where
deriving DecidableEq, Repr

/-- `read_class.from_db(obj)` for the default `__read_class__`. -/
def readFromDb (_ : Player) : ReadObj := {}

/-- `PaginatedResponse(total=..., data=...)`. -/
structure Paginated where
  total : Nat
  data : List ReadObj
deriving DecidableEq, Repr

/-- `BaseDB._base_read_list_object` (base.py lines 194-218): build the
filtered query, render `ORDER BY` then `OFFSET`/`LIMIT` (SQL clause
order), and compute `total` as `count(*)` over `query.subquery()` —
the subquery already carries the `OFFSET`/`LIMIT`, so the count is the
number of rows of the returned page, not of the full filtered set. -/
def baseReadListObject (rows : List Player) (offset limit : Nat)
    (sort : Option PlayerSortField) (dir : Direction)
    (filterText : Option String) : Except PyErr Paginated :=
  (matchingRowsE rows filterText).map (fun ms =>
    let page := ((applySort sort dir ms).drop offset).take limit
    { total := page.length, data := page.map readFromDb })

/-- `Player._as_id_tuple()`: the tuple of primary-key values, here the
single `id` column. -/
def playerIdTuple (p : Player) : Option Int := p.id

/-- `session.get(cls, id)`: primary-key lookup in the store. -/
def storeGet (store : List Player) (k : Option Int) : Option Player :=
  store.find? (fun p => p.id == k)

/-- `BaseDB._base_read_single` (base.py lines 243-258): 404 when the
key is absent, otherwise the `read_class.from_db` projection. -/
def baseReadSingle (store : List Player) (k : Option Int) :
    Except HttpErr ReadObj :=
  match storeGet store k with
  | none => Except.error HttpErr.notFound404
  | some obj => Except.ok (readFromDb obj)

/-- `BaseDB._base_delete_object` (base.py lines 357-368): 404 when the
key is absent; otherwise `session.delete(obj); session.commit()`
removes that row and the route answers 204 with no body (`Except.ok ()`).
Returns the store after the call together with the outcome. -/
def baseDeleteObject (store : List Player) (k : Option Int) :
    List Player × Except HttpErr Unit :=
  match storeGet store k with
  | none => (store, Except.error HttpErr.notFound404)
  | some _ => (store.eraseP (fun p => p.id == k), Except.ok ())

/-- Outcome of `_base_create_object`. -/
inductive CreateResult
  | created (r : ReadObj)
  | conflict422
  | raised (e : PyErr)
deriving DecidableEq, Repr

/-- `BaseDB._base_create_object` (base.py lines 276-299) on `Player`,
with `raw_obj.model_dump()` supplying only `username` (projections never
carry primary keys), so `cls.to_db` leaves `id` at its default `None`.
`validate()` is the default, always `(True, "")`.  A duplicate key is
answered with 422 and nothing persisted.  Otherwise the object is added
and committed, and then `session.refresh()` is called without the
instance argument, so Python raises `TypeError` after the commit:
the 201 response with the Read projection is never produced. -/
def baseCreateObject (store : List Player) (rawUsername : String) :
    List Player × CreateResult :=
  let obj : Player := { id := none, username := rawUsername }
  match storeGet store (playerIdTuple obj) with
  | some _ => (store, CreateResult.conflict422)
  | none => (store ++ [obj], CreateResult.raised PyErr.typeError)

/-- Projections a route can decode its body with. -/
inductive Projection
  | create
  | update
  | read
deriving DecidableEq, Repr

/-- The projection `BaseDB.register_create` (base.py line 154) passes as
the `create_class` of `_create_object_wrapper`: the source passes
`cls.__update_class__`. -/
def registerCreateBodyProjection : Projection := Projection.update

/-- Python types a path parameter can be annotated with. -/
inductive PyType
  | int
  | str
deriving DecidableEq, Repr

/-- Underlying storage types of primary-key columns. -/
inductive SqlColType
  | integer
  | varchar
deriving DecidableEq, Repr

/-- `column.type.python_type`, agreeing with the fallback
`TYPE_MAP = {"VARCHAR": str, "INTEGER": int}`. -/
def colPythonType : SqlColType → PyType
  | .integer => PyType.int
  | .varchar => PyType.str

/-- One parameter of a Python function signature. -/
structure PyParam where
  name : String
  annTy : Option PyType
deriving DecidableEq, Repr

/-- A Python `Signature` value. -/
structure PySignature where
  params : List PyParam
deriving DecidableEq, Repr

/-- The final statement of `_create_id_signature` (base.py line 105):
`Signature(list[modified_sig.values()])` subscripts the `list` builtin
instead of calling it, producing a `types.GenericAlias`, which is not an
iterable of `Parameter`s, so constructing the `Signature` raises
`TypeError` whatever parameters were computed. -/
def signatureOfListSubscript (_ : List PyParam) : Except PyErr PySignature :=
  Except.error PyErr.typeError

/-- `BaseDB._create_id_signature` (base.py lines 82-105): pop `kwargs`
(KeyError if absent), look up each primary-key column's Python type,
append one keyword-only parameter per primary key in declaration order,
then build the new `Signature` via `signatureOfListSubscript`. -/
def createIdSignature (oldParams : List PyParam)
    (pks : List (String × SqlColType)) : Except PyErr PySignature :=
  if oldParams.any (fun p => p.name == "kwargs") then
    let base := oldParams.filter (fun p => p.name != "kwargs")
    let pkParams := pks.map (fun kc => PyParam.mk kc.1 (some (colPythonType kc.2)))
    signatureOfListSubscript (base ++ pkParams)
  else
    Except.error PyErr.keyError

/-- Primary-key columns of `Player` in declaration order. -/
def playerPrimaryKeyCols : List (String × SqlColType) := [("id", SqlColType.integer)]

/-- Parameters of the inner `read_single_object` handler before the
signature rewrite. -/
def readSingleWrapperParams : List PyParam :=
  [⟨"current_user", none⟩, ⟨"session", none⟩, ⟨"kwargs", none⟩]

/-- Parameters of the inner `delete_object` handler before the
signature rewrite. -/
def deleteWrapperParams : List PyParam :=
  [⟨"current_user", none⟩, ⟨"session", none⟩, ⟨"kwargs", none⟩]

/-- A registered API route. -/
structure Route where
  path : String
  method : String
deriving DecidableEq, Repr

/-- `Player._as_id_endpoint()`: one path segment per primary key. -/
def asIdEndpointPlayer : String := "/\x7bid\x7d"

/-- `BaseDB.register_read_single` on `Player`: the wrapper rewrites the
handler signature with `_create_id_signature` before the route can be
added. -/
def registerReadSinglePlayer : Except PyErr Route :=
  (createIdSignature readSingleWrapperParams playerPrimaryKeyCols).map
    (fun _ => Route.mk ("/player" ++ asIdEndpointPlayer) "GET")

/-- `BaseDB.register_read_list` on `Player`: no signature rewrite, the
route is added directly. -/
def registerReadListPlayer : Except PyErr Route :=
  Except.ok (Route.mk "/player" "GET")

/-- `BaseDB.register_create` on `Player` (base.py line 154): the call
evaluates `cls.__update_class__`, but `Player` defines neither
`create_class` nor `update_class`, so `__init_subclass__` never set the
attribute and the access raises `AttributeError`. -/
def registerCreatePlayer : Except PyErr Route :=
  Except.error PyErr.attributeError

/-- `BaseDB.register_update` on `Player` (base.py line 166): the same
missing `cls.__update_class__` access raises `AttributeError`. -/
def registerUpdatePlayer : Except PyErr Route :=
  Except.error PyErr.attributeError

/-- `BaseDB.register_delete` on `Player`, when reached with its proper
arguments: the wrapper again rewrites the signature. -/
def registerDeletePlayer : Except PyErr Route :=
  (createIdSignature deleteWrapperParams playerPrimaryKeyCols).map
    (fun _ => Route.mk ("/player" ++ asIdEndpointPlayer) "DELETE")

/-- The `register_delete` call inside `register_routes` (base.py line
192) is written `cls.register_delete(router=router, rotue=route,
scopes=write)`: `rotue` is not a parameter of `register_delete` and
`route` is a required keyword-only parameter, so the call itself raises
`TypeError` before the body runs. -/
def registerDeleteCallPlayer : Except PyErr Route :=
  Except.error PyErr.typeError

/-- `BaseDB.register_routes` on `Player` (base.py lines 184-192): the
five registrations in source order, stopping at the first raised
exception. -/
def registerRoutesPlayer : Except PyErr (List Route) := do
  let r1 ← registerReadSinglePlayer
  let r2 ← registerReadListPlayer
  let r3 ← registerCreatePlayer
  let r4 ← registerUpdatePlayer
  let r5 ← registerDeleteCallPlayer
  Except.ok [r1, r2, r3, r4, r5]

/-- A principal record as resolved from the user directory
(`security.py`): username, active flag, and granted scopes/access. -/
structure AuthUser where
  username : String
  disabled : Bool
  access : List String
deriving DecidableEq, Repr

/-- The decoded JWT payload: `sub` claim and `scopes` claim (defaulting
to the empty list).  An undecodable token is modelled as `none` at the
call site. -/
structure TokenPayload where
  sub : Option String
  scopes : List String
deriving DecidableEq, Repr

/-- Outcome of the dependency chain
`get_current_user` / `get_current_active_user`. -/
inductive AuthOutcome
  | ok (u : AuthUser)
  | credentials401 (www : String)
  | insufficient401 (www : String)
  | inactive400
deriving DecidableEq, Repr

/-- The `WWW-Authenticate` challenge composed from the operation's
declared scopes (security.py lines 99-102). -/
def authenticateValue (scopes : List String) : String :=
  if scopes.isEmpty then "Bearer"
  else "Bearer scope=\"" ++ String.intercalate " " scopes ++ "\""

/-- `get_user(FAKE_DB, username)`: dictionary lookup by username. -/
def findUser (db : List AuthUser) (name : String) : Option AuthUser :=
  db.find? (fun u => u.username == name)

/-- `get_current_user` (security.py lines 96-137).  `required` is the
aggregated `SecurityScopes` of the operation; it is used only to compose
the `WWW-Authenticate` header.  The decision compares the scopes
requested in the token payload against the principal's `access` list:
the first requested scope outside it raises the insufficient-permission
401.  The operation's required scopes are never compared with
anything. -/
def getCurrentUser (required : List String) (db : List AuthUser)
    (payload : Option TokenPayload) : AuthOutcome :=
  let www := authenticateValue required
  match payload with
  | none => AuthOutcome.credentials401 www
  | some p =>
    match p.sub with
    | none => AuthOutcome.credentials401 www
    | some name =>
      match findUser db name with
      | none => AuthOutcome.credentials401 www
      | some u =>
        if p.scopes.all (fun s => u.access.contains s) then AuthOutcome.ok u
        else AuthOutcome.insufficient401 www

/-- `get_current_active_user` (security.py lines 139-142): a disabled
principal is rejected with 400 after `get_current_user` accepts. -/
def getCurrentActiveUser (required : List String) (db : List AuthUser)
    (payload : Option TokenPayload) : AuthOutcome :=
  match getCurrentUser required db payload with
  | AuthOutcome.ok u =>
    if u.disabled then AuthOutcome.inactive400 else AuthOutcome.ok u
  | e => e

/-- Column values of the generic store used to model
`_base_update_object` over an arbitrary model. -/
inductive Val
  | vInt (n : Int)
  | vStr (s : String)
  | vNone
deriving DecidableEq, Repr

/-- A model instance: a valuation of the field names. -/
def DbObj := String → Val

/-- The declared shape of a model: its field names, the subset marked
primary key, and the declared default of each field. -/
structure Schema where
  fields : List String
  pks : List String
  dflt : String → Val

/-- `cls(**raw)`, i.e. `BaseDB.to_db(raw_obj)` (base.py lines 45-47):
fields present in the raw dict take its value, every other field takes
its declared default. -/
def toDbS (schema : Schema) (body : List (String × Val)) : DbObj :=
  fun f =>
    match body.lookup f with
    | some v => v
    | none => schema.dflt f

/-- `obj.model_dump()`: one entry per declared field. -/
def modelDumpS (schema : Schema) (o : DbObj) : List (String × Val) :=
  schema.fields.map (fun f => (f, o f))

/-- `setattr(obj, k, v)`. -/
def setAttr (o : DbObj) (key : String) (v : Val) : DbObj :=
  fun f => if f = key then v else o f

/-- The `for k, v in parsed_obj.model_dump().items(): setattr(obj, k, v)`
loop of `_base_update_object` (base.py lines 328-329). -/
def overwriteFrom (o : DbObj) : List (String × Val) → DbObj
  | [] => o
  | (k, v) :: rest => overwriteFrom (setAttr o k v) rest

/-- Primary-key tuple of a row (`_as_id_tuple`). -/
def rowKey (schema : Schema) (o : DbObj) : List Val :=
  schema.pks.map (fun f => o f)

/-- Index of the row `session.get(cls, id)` would return. -/
def findRowIdx (schema : Schema) (store : List DbObj) (k : List Val) : Option Nat :=
  store.findIdx? (fun o => rowKey schema o == k)

/-- The row valuation with every field unset. -/
def emptyObj : DbObj := fun _ => Val.vNone

/-- `BaseDB._base_update_object` (base.py lines 315-338): 404 when the
key is absent; otherwise a fresh instance is built from the update
body's full dump (`parsed_obj = cls.to_db(new_obj.model_dump())`), and
every field of its dump — the complete declared field list — is written
onto the fetched row with `setattr`; the default `validate()` accepts;
`session.add`/`commit`/`refresh(obj)` persist the row in place, and the
Read projection of the updated row is returned (modelled as the row
itself). -/
def baseUpdateObject (schema : Schema) (store : List DbObj) (k : List Val)
    (body : List (String × Val)) : List DbObj × Except HttpErr DbObj :=
  match findRowIdx schema store k with
  | none => (store, Except.error HttpErr.notFound404)
  | some i =>
    let row := store.getD i emptyObj
    let parsed := toDbS schema body
    let newRow := overwriteFrom row (modelDumpS schema parsed)
    (store.set i newRow, Except.ok newRow)

/-- A concrete three-field schema used to exercise the update model:
`id` (primary key, default null), `username` (default empty) and
`level` (default 1). -/
def wSchema : Schema :=
  { fields := ["id", "username", "level"],
    pks := ["id"],
    dflt := fun f =>
      if f = "level" then Val.vInt 1
      else if f = "username" then Val.vStr "" else Val.vNone }

/-- A stored row of `wSchema`: id 7, username alice, level 5. -/
def wRow : DbObj :=
  fun f =>
    if f = "id" then Val.vInt 7
    else if f = "username" then Val.vStr "alice" else Val.vInt 5

/-- An update body carrying only `username`, omitting `level`. -/
def wBody : List (String × Val) := [("username", Val.vStr "bob")]

/-- The row produced by the update's `setattr` loop on `wRow`. -/
def wNewRow : DbObj :=
  overwriteFrom wRow (modelDumpS wSchema (toDbS wSchema wBody))

/-- Claim C1: the claim asserts that `total` always equals the size of the
full filtered set, independent of offset and limit.  On a store of two
rows with no filter, `offset = 0` and `limit = 1`, the code computes
`total = 1` — `count(*)` runs over the subquery that already carries
the `OFFSET`/`LIMIT` — while the full filtered set
(`matchingRowsE` with no pagination) has 2 rows. -/
theorem readList_total_counts_only_the_page :
    baseReadListObject [⟨some 1, "alice"⟩, ⟨some 2, "bob"⟩] 0 1 none Direction.asc none
      = Except.ok { total := 1, data := [{}] }
    ∧ matchingRowsE [⟨some 1, "alice"⟩, ⟨some 2, "bob"⟩] none
      = Except.ok [⟨some 1, "alice"⟩, ⟨some 2, "bob"⟩]
    ∧ ([⟨some 1, "alice"⟩, ⟨some 2, "bob"⟩] : List Player).length = 2 :=
  ⟨rfl, rfl, rfl⟩

/-- Claim C3: on a valid, non-duplicate create the code persists the new row
and then raises `TypeError` (`session.refresh()` is missing its
instance argument), so the 201 response with the Read projection is
never produced; moreover `register_create` wires the body to the
model's Update projection, not its Create projection. -/
theorem create_success_path_raises :
    baseCreateObject [] "alice"
      = ([⟨none, "alice"⟩], CreateResult.raised PyErr.typeError)
    ∧ registerCreateBodyProjection ≠ Projection.create :=
  ⟨rfl, by decide⟩

/-- Claim C4: on the `Player` model (whose `username : str` column is a
default-filter field) any list query with a non-empty filter text
raises `TypeError`: `apply_filter` calls `_get_default_filters`, whose
loop executes `defaults.append[cls_attr]` — subscripting the bound
method — the first time it meets a string-typed field.  No constraint
to the matching rows is ever produced. -/
theorem filtered_list_raises :
    baseReadListObject [⟨some 1, "alice"⟩] 0 100 none Direction.asc (some "ali")
      = Except.error PyErr.typeError :=
  rfl

/-- Claim C5: `register_routes` on `Player` raises instead of registering the
five operations: the very first registration rewrites the handler
signature with `_create_id_signature`, which raises `TypeError`
(and the `register_delete` call spells its keyword `rotue`, a further
`TypeError` had execution reached it). -/
theorem register_routes_raises :
    registerRoutesPlayer = Except.error PyErr.typeError :=
  rfl

/-- Claim C6: default-filter discovery on `Player` should return exactly the
string-typed declared fields, `["username"]`, but instead raises
`TypeError` on the first string-typed field it meets
(`defaults.append[cls_attr]` subscripts the method). -/
theorem default_filters_discovery_raises :
    getDefaultFiltersPlayer = Except.error PyErr.typeError
    ∧ (playerAttrs.filter (fun a => a.2.any isStrLike)).map Prod.fst = ["username"] :=
  ⟨rfl, rfl⟩

/-- Claim C7: the dynamic signature rewrite for the single-object handlers of
`Player` raises `TypeError` instead of producing a signature with one
`int`-annotated `id` path parameter: line 105 of base.py builds
`Signature(list[modified_sig.values()])`, subscripting the `list`
builtin instead of calling it. -/
theorem id_signature_rewrite_raises :
    createIdSignature readSingleWrapperParams playerPrimaryKeyCols
      = Except.error PyErr.typeError :=
  rfl

/-- Characterisation of acceptance by the authorization gate: the
principal is returned exactly when the token decodes to a known
username, every scope requested in the token is in the principal's
access list, and the principal is not disabled.  The operation's
required scopes play no part. -/
theorem gate_ok_iff (required : List String) (db : List AuthUser)
    (payload : Option TokenPayload) (u : AuthUser) :
    getCurrentActiveUser required db payload = AuthOutcome.ok u ↔
      (∃ p name, payload = some p ∧ p.sub = some name ∧ findUser db name = some u ∧
        p.scopes.all (fun s => u.access.contains s) = true ∧ u.disabled = false) := by
  unfold getCurrentActiveUser getCurrentUser
  cases payload with
  | none => simp
  | some p =>
    cases hsub : p.sub with
    | none => simp [hsub]
    | some name =>
      cases hfind : findUser db name with
      | none => simp [hsub, hfind]
      | some u0 =>
        by_cases hall : p.scopes.all (fun s => u0.access.contains s) = true
        · by_cases hdis : u0.disabled = true
          · simp only [hsub, hfind, hall, if_true, hdis]
            constructor
            · intro h; cases h
            · rintro ⟨p', name', hp, hs, hf, _, hd⟩
              cases hp; rw [hsub] at hs; cases hs
              rw [hfind] at hf; cases hf
              rw [hdis] at hd; cases hd
          · have hdis' : u0.disabled = false := by
              cases h : u0.disabled
              · rfl
              · exact absurd h hdis
            simp only [hsub, hfind, hall, if_true, hdis', if_false, Bool.false_eq_true]
            constructor
            · intro h; cases h
              exact ⟨p, name, rfl, hsub, hfind, hall, hdis'⟩
            · rintro ⟨p', name', hp, hs, hf, _, _⟩
              cases hp; rw [hsub] at hs; cases hs
              rw [hfind] at hf; cases hf
              rfl
        · simp only [hsub, hfind, hall, if_false]
          constructor
          · intro h; cases h
          · rintro ⟨p', name', hp, hs, hf, ha, _⟩
            cases hp; rw [hsub] at hs; cases hs
            rw [hfind] at hf; cases hf
            exact absurd ha hall

/-- Claim C2 counterexample: an active principal whose granted scopes are
`["player"]` — not a superset of the operation's declared required
scopes `["admin"]` — presents a token requesting no scopes, and the
gate returns the principal, so the handler body runs; the claim says
the request must be rejected with an insufficient-scope 401. -/
theorem gate_accepts_without_required_scope :
    getCurrentActiveUser ["admin"] [⟨"user", false, ["player"]⟩]
        (some ⟨some "user", []⟩)
      = AuthOutcome.ok ⟨"user", false, ["player"]⟩
    ∧ ("admin" ∈ (["player"] : List String) → False) :=
  ⟨rfl, by decide⟩

/-- Claim C2 amended: the gate's acceptance is independent of the operation's
declared required scopes (they are used only for the `WWW-Authenticate`
challenge); the handler body runs exactly when the token decodes to a
known, non-disabled principal and every scope requested in the token is
in the principal's access list — an insufficient-scope 401 is issued
only when the token requests a scope outside that list. -/
theorem gate_checks_token_scopes_against_access
    (required alt : List String) (db : List AuthUser)
    (payload : Option TokenPayload) :
    (∀ u, getCurrentActiveUser required db payload = AuthOutcome.ok u ↔
      getCurrentActiveUser alt db payload = AuthOutcome.ok u)
    ∧ (∀ u, getCurrentActiveUser required db payload = AuthOutcome.ok u →
      u.disabled = false ∧
        ∃ p, payload = some p ∧ p.scopes.all (fun s => u.access.contains s) = true) := by
  constructor
  · intro u
    rw [gate_ok_iff required db payload u, gate_ok_iff alt db payload u]
  · intro u h
    obtain ⟨p, name, hp, _, _, hall, hdis⟩ := (gate_ok_iff required db payload u).mp h
    exact ⟨hdis, p, hp, hall⟩

/-- Claim C2 witness: the amended theorem applied at a concrete input — a
principal with access `["player"]` and a token requesting `["player"]`
is accepted both under required scopes `["admin"]` and `["write"]`,
and the acceptance yields the token-scopes-inside-access fact. -/
theorem gate_checks_token_scopes_witness :
    getCurrentActiveUser ["write"] [⟨"user", false, ["player"]⟩]
        (some ⟨some "user", ["player"]⟩)
      = AuthOutcome.ok ⟨"user", false, ["player"]⟩
    ∧ (⟨"user", false, ["player"]⟩ : AuthUser).disabled = false := by
  have h := gate_checks_token_scopes_against_access ["admin"] ["write"]
    [⟨"user", false, ["player"]⟩] (some ⟨some "user", ["player"]⟩)
  have hacc : getCurrentActiveUser ["write"] [⟨"user", false, ["player"]⟩]
      (some ⟨some "user", ["player"]⟩) = AuthOutcome.ok ⟨"user", false, ["player"]⟩ :=
    (h.1 ⟨"user", false, ["player"]⟩).mp rfl
  have hfacts := h.2 ⟨"user", false, ["player"]⟩ rfl
  exact ⟨hacc, hfacts.1⟩

/-- Sorting permutes the rows, so the `ORDER BY` clause never changes
how many rows the query yields. -/
theorem length_applySort (sort : Option PlayerSortField) (dir : Direction)
    (rows : List Player) : (applySort sort dir rows).length = rows.length := by
  cases sort with
  | none => rfl
  | some f => simp [applySort, List.length_mergeSort]

/-- Claim C8 counterexample: a list query carrying a filter text on
`Player` raises `TypeError` for every offset — here with `offset = 5`
past the end of a one-row store — instead of returning an empty page,
because the filter-field discovery crashes before pagination is
reached. -/
theorem readList_filtered_offset_past_end_errors :
    baseReadListObject [⟨some 1, "alice"⟩] 5 2 none Direction.asc (some "xyz")
      = Except.error PyErr.typeError
    ∧ ([(⟨some 1, "alice"⟩ : Player)].length ≤ 5) :=
  ⟨rfl, by decide⟩

/-- Claim C8 (amended): whenever the list operation returns a page, the page carries at
most `limit` rows, and an `offset` at or past the number of stored rows
yields an empty page (the successful cases of `_base_read_list_object`
apply no row constraint, so the filtered set is the whole store). -/
theorem readList_page_bounded (rows : List Player) (offset limit : Nat)
    (sort : Option PlayerSortField) (dir : Direction)
    (filterText : Option String) (resp : Paginated)
    (h : baseReadListObject rows offset limit sort dir filterText = Except.ok resp) :
    resp.data.length ≤ limit ∧ (rows.length ≤ offset → resp.data = []) := by
  unfold baseReadListObject matchingRowsE at h
  cases hft : filterTruthy filterText with
  | some f =>
    rw [hft] at h
    simp only [getDefaultFiltersPlayer, getDefaultFiltersWithCache, playerAttrs,
      defaultFiltersLoop, isStrLike] at h
    cases h
  | none =>
    rw [hft] at h
    simp only [Except.map] at h
    cases h
    constructor
    · simp [List.length_take]
    · intro hoff
      have hdrop : (applySort sort dir rows).drop offset = [] :=
        List.drop_eq_nil_of_le ((length_applySort sort dir rows).le.trans hoff)
      simp [hdrop]

/-- Claim C8 witness: a one-row store read with `offset = 5`, `limit = 2`
returns a page of at most 2 rows, and the offset being past the end
makes the page empty. -/
theorem readList_page_bounded_witness :
    ∃ resp, baseReadListObject [⟨some 1, "alice"⟩] 5 2 none Direction.asc none
        = Except.ok resp
      ∧ resp.data.length ≤ 2
      ∧ ([(⟨some 1, "alice"⟩ : Player)].length ≤ 5 → resp.data = []) :=
  ⟨_, rfl, readList_page_bounded [⟨some 1, "alice"⟩] 5 2 none Direction.asc none _ rfl⟩

/-- In a store whose rows have pairwise distinct primary keys — the
uniqueness a relational primary key guarantees — erasing the row
`session.get` found leaves no row with that key. -/
theorem find?_eraseP_none (l : List Player) (k : Option Int)
    (h : l.Pairwise (fun a b => a.id ≠ b.id)) :
    (l.eraseP (fun p => p.id == k)).find? (fun p => p.id == k) = none := by
  induction l with
  | nil => rfl
  | cons a t ih =>
    rw [List.pairwise_cons] at h
    obtain ⟨ha, ht⟩ := h
    by_cases pa : (a.id == k) = true
    · rw [List.eraseP_cons, pa, cond_true]
      rw [List.find?_eq_none]
      intro b hb
      have hne : a.id ≠ b.id := ha b hb
      have hak : a.id = k := by exact_mod_cast eq_of_beq pa
      simp only [beq_iff_eq]
      rw [← hak]
      exact fun hbk => hne hbk.symm
    · have pa' : (a.id == k) = false := by
        cases hc : (a.id == k)
        · rfl
        · exact absurd hc pa
      rw [List.eraseP_cons, pa', cond_false]
      rw [List.find?_cons_of_neg _ (by rw [pa']; exact Bool.false_ne_true)]
      exact ih ht

/-- Claim C9: with pairwise-distinct primary keys, a successful delete (204)
makes a subsequent read-one of the same key answer 404, and a delete of
an absent key answers 404 and leaves the store unchanged. -/
theorem delete_terminal (store : List Player) (k : Option Int)
    (huniq : store.Pairwise (fun a b => a.id ≠ b.id)) :
    (∀ store', baseDeleteObject store k = (store', Except.ok ()) →
      baseReadSingle store' k = Except.error HttpErr.notFound404)
    ∧ (storeGet store k = none →
      baseDeleteObject store k = (store, Except.error HttpErr.notFound404)) := by
  constructor
  · intro store' hdel
    unfold baseDeleteObject at hdel
    cases hget : storeGet store k with
    | none =>
      rw [hget] at hdel
      cases hdel
    | some obj =>
      rw [hget] at hdel
      have hs : store' = store.eraseP (fun p => p.id == k) :=
        (Prod.mk.injEq _ _ _ _ ▸ hdel).1.symm
      unfold baseReadSingle storeGet
      rw [hs, find?_eraseP_none store k huniq]
  · intro hget
    unfold baseDeleteObject
    rw [hget]

/-- Claim C9 witness: deleting the only row of a one-row store succeeds and
the subsequent read-one of that key answers 404. -/
theorem delete_terminal_witness :
    baseDeleteObject [⟨some 1, "alice"⟩] (some 1) = ([], Except.ok ())
    ∧ baseReadSingle [] (some 1) = Except.error HttpErr.notFound404 :=
  ⟨rfl, (delete_terminal [⟨some 1, "alice"⟩] (some 1) (by simp)).1 [] rfl⟩

/-- Writing a list of field values leaves untouched any field whose
name the list does not carry. -/
theorem overwriteFrom_not_mem (o : DbObj) (dump : List (String × Val))
    (f : String) (hf : f ∉ dump.map Prod.fst) :
    overwriteFrom o dump f = o f := by
  induction dump generalizing o with
  | nil => rfl
  | cons kv rest ih =>
    obtain ⟨k, v⟩ := kv
    simp only [List.map_cons, List.mem_cons, not_or] at hf
    rw [overwriteFrom, ih (setAttr o k v) hf.2]
    simp [setAttr, hf.1]

/-- If every entry of the dump carries `parsed`'s value for its field,
then after the `setattr` loop every dumped field reads back `parsed`'s
value. -/
theorem overwriteFrom_mem (o parsed : DbObj) (dump : List (String × Val))
    (f : String) (hvals : ∀ p ∈ dump, p.2 = parsed p.1)
    (hf : f ∈ dump.map Prod.fst) :
    overwriteFrom o dump f = parsed f := by
  induction dump generalizing o with
  | nil => simp at hf
  | cons kv rest ih =>
    obtain ⟨k, v⟩ := kv
    by_cases hr : f ∈ rest.map Prod.fst
    · exact ih (setAttr o k v) (fun p hp => hvals p (List.mem_cons_of_mem _ hp)) hr
    · have hfk : f = k := by
        simp only [List.map_cons, List.mem_cons] at hf
        exact hf.resolve_right hr
      rw [overwriteFrom, overwriteFrom_not_mem _ _ _ hr]
      have hv : v = parsed k := hvals (k, v) (List.mem_cons_self _ _)
      subst hfk
      simp [setAttr, hv]

/-- Claim C10: when the update of an existing row succeeds, the stored row is
overwritten, field by field, with the fresh instance
`cls.to_db(new_obj.model_dump())` — in particular every non-primary-key
field takes that instance's value, every field absent from the update
body is reset to its declared default — and the only row the store
changes at is the updated one. -/
theorem update_resets_omitted_fields (schema : Schema) (store : List DbObj)
    (k : List Val) (body : List (String × Val)) (i : Nat)
    (store' : List DbObj) (resp : DbObj)
    (hidx : findRowIdx schema store k = some i)
    (hrun : baseUpdateObject schema store k body = (store', Except.ok resp)) :
    (∀ f ∈ schema.fields, f ∉ schema.pks → resp f = toDbS schema body f)
    ∧ (∀ f ∈ schema.fields, body.lookup f = none → resp f = schema.dflt f)
    ∧ store' = store.set i resp
    ∧ (∀ j, j ≠ i → store'[j]? = store[j]?) := by
  unfold baseUpdateObject at hrun
  rw [hidx] at hrun
  have hstore : store' = store.set i
      (overwriteFrom (store.getD i emptyObj) (modelDumpS schema (toDbS schema body))) :=
    ((Prod.mk.injEq _ _ _ _).mp hrun).1.symm
  have hresp : resp =
      overwriteFrom (store.getD i emptyObj) (modelDumpS schema (toDbS schema body)) :=
    (Except.ok.inj ((Prod.mk.injEq _ _ _ _).mp hrun).2).symm
  have hfield : ∀ f ∈ schema.fields, resp f = toDbS schema body f := by
    intro f hfmem
    rw [hresp]
    apply overwriteFrom_mem
    · intro p hp
      simp only [modelDumpS, List.mem_map] at hp
      obtain ⟨g, _, hg⟩ := hp
      rw [← hg]
    · simp only [modelDumpS, List.map_map]
      simpa using hfmem
  refine ⟨fun f hfmem _ => hfield f hfmem, ?_, ?_, ?_⟩
  · intro f hfmem hnone
    rw [hfield f hfmem]
    simp [toDbS, hnone]
  · rw [hstore, hresp]
  · intro j hj
    rw [hstore]
    exact List.getElem?_set_ne (fun h => hj h.symm)

/-- Claim C10 witness: updating the row with id 7 by a body that only sets
`username` rewrites `username` to the body's value and resets the
omitted `level` field to its declared default 1, discarding the stored
value 5. -/
theorem update_resets_omitted_fields_witness :
    baseUpdateObject wSchema [wRow] [Val.vInt 7] wBody = ([wNewRow], Except.ok wNewRow)
    ∧ wNewRow "level" = Val.vInt 1
    ∧ wNewRow "username" = Val.vStr "bob" := by
  have h := update_resets_omitted_fields wSchema [wRow] [Val.vInt 7] wBody 0
    [wNewRow] wNewRow rfl rfl
  refine ⟨rfl, ?_, ?_⟩
  · have hlvl := h.2.1 "level" (by simp [wSchema]) rfl
    rw [hlvl]; rfl
  · have husr := h.1 "username" (by simp [wSchema]) (by simp [wSchema])
    rw [husr]; rfl

end CloudRaiders
